import Mathlib

/-!
Verification of the rampart reverse-proxy core (src/lib/rampart.js and the
bin script) against its natural-language specification.  The JavaScript is
shallowly embedded: pure helpers become Lean functions on `String` and
`List Char`; the asynchronous request handler and the origin-response
admitter become functions from an explicit cache-lookup snapshot (resp. an
origin response) to the ordered list of cache operations they issue plus the
response they produce.  JS numbers that hold epoch milliseconds or TTL
seconds are modelled as `Nat` (exact for all values below 2^53, which covers
every input considered here); signed arithmetic such as
`meta.e - Date.now()` uses `Int`.
-/

namespace Rampart

/-- Character lists; request URLs and header values are processed at this
granularity so that every operation is structurally recursive. -/
abbrev Chars := List Char

/-- Accumulator-passing splitter used by `splitOn`. -/
def splitOnAux (sep : Char) : Chars → Chars → List Chars
  | [], acc => [acc.reverse]
  | c :: rest, acc =>
    if c = sep then acc.reverse :: splitOnAux sep rest []
    else splitOnAux sep rest (c :: acc)

/-- Split a character list on a separator character.  Always returns at
least one (possibly empty) piece. -/
def splitOn (sep : Char) (s : Chars) : List Chars := splitOnAux sep s []

/-- Join pieces with a separator character; inverse of `splitOn` on its
image. -/
def joinWith (sep : Char) : List Chars → Chars
  | [] => []
  | [x] => x
  | x :: xs => x ++ sep :: joinWith sep xs

/-- Leading run of decimal digits, the `(\d+)` capture of the TTL regexes in
src/lib/rampart.js. -/
def takeDigits : Chars → Chars
  | [] => []
  | c :: rest => if c.isDigit then c :: takeDigits rest else []

/-- Decimal value of a digit string; JS coerces the captured digits with
`Number`, exact below 2^53. -/
def digitsToNat (ds : Chars) : Nat :=
  ds.foldl (fun a c => a * 10 + (c.toNat - 48)) 0

/-- JS `String.prototype.indexOf(sub) != -1`: does `sub` occur as a
contiguous substring? -/
def containsSub (sub : Chars) : Chars → Bool
  | [] => sub.isEmpty
  | c :: rest => sub.isPrefixOf (c :: rest) || containsSub sub rest

/-- First match of the regex `pat(\d+)`: scan left to right for an
occurrence of `pat` followed by at least one digit and return the maximal
digit run there, like `headerValue.match(/s-maxage=(\d+)/)` in
src/lib/rampart.js lines 48 and 52. -/
def findPatternDigits (pat : Chars) : Chars → Option Chars
  | [] => none
  | c :: rest =>
    if pat.isPrefixOf (c :: rest) then
      let ds := takeDigits ((c :: rest).drop pat.length)
      if ds = [] then findPatternDigits pat rest else some ds
    else findPatternDigits pat rest

/-- src/lib/rampart.js lines 43-60, `ttlFromCacheControlHeader`: parse the
TTL in seconds from a Cache-Control response header.  Returns 0 when the
value contains the substring "no-cache" or "private" (JS `indexOf`), else
the digits captured by `/s-maxage=(\d+)/`, else the digits captured by
`/max-age=(\d+)/`, else 0.  The JS function returns the captured digit
STRING, which callers coerce numerically (`ttl > 0`, `ttl * 1000`); the
embedding returns that numeric value directly.  An empty header value is
falsy in JS and yields 0 there; here every sub-match fails on `""` and the
result is 0 as well. -/
def ttlFromCacheControlHeader (headerValue : String) : Nat :=
  let cs := headerValue.data
  if containsSub "no-cache".data cs || containsSub "private".data cs then 0
  else
    match findPatternDigits "s-maxage=".data cs with
    | some ds => digitsToNat ds
    | none =>
      match findPatternDigits "max-age=".data cs with
      | some ds => digitsToNat ds
      | none => 0

/-- src/lib/rampart.js lines 38-41, `cacheKey`: the three per-fingerprint
key names are "rampart-" followed by the dash-joined parts. -/
def cacheKey (parts : List String) : String :=
  "rampart-" ++ String.intercalate "-" parts

/-- src/lib/rampart.js lines 21-25: map of media types, each with the array
of cacheable subtypes. -/
def cacheableSubtypes (t : Chars) : Option (List Chars) :=
  if t = "application".data then some ["xml".data, "json".data, "javascript".data]
  else if t = "text".data then
    some ["javascript".data, "xml".data, "css".data, "html".data, "plain".data]
  else none

/-- Strip leading and trailing spaces. -/
def trimSpaces (s : Chars) : Chars :=
  ((s.dropWhile (· = ' ')).reverse.dropWhile (· = ' ')).reverse

/-- Modelled from the spec (section 4.3): the Content-Type parse performed
by the external media-type npm package, which is a dependency and not part
of src/.  The value is split into type and subtype at "/", parameters after
";" are discarded, matching is case-insensitive, and a subtype of the form
"variant+suffix" exposes the part after the last "+" as the suffix. -/
def parseMediaType (contentType : String) :
    Option (Chars × Chars × Option Chars) :=
  match splitOn ';' contentType.data with
  | [] => none
  | main :: _ =>
    match splitOn '/' (trimSpaces main) with
    | [t, sub] =>
      if t = [] ∨ sub = [] then none
      else
        let tl := t.map Char.toLower
        let subl := sub.map Char.toLower
        match splitOn '+' subl with
        | [_] => some (tl, subl, none)
        | parts => some (tl, subl, parts.getLast?)
    | _ => none

/-- src/lib/rampart.js lines 27-36, `isCacheable`: a Content-Type is
cacheable when its type appears in the media-type map and either the
subtype or (when a "+suffix" is present) the suffix is in that type's
list. -/
def isCacheable (contentType : String) : Bool :=
  match parseMediaType contentType with
  | none => false
  | some (t, sub, suf) =>
    match cacheableSubtypes t with
    | none => false
    | some subs =>
      subs.contains sub ||
        (match suf with
         | some sf => subs.contains sf
         | none => false)

/-- The meta record built in src/lib/rampart.js lines 169-181: `e` is the
absolute expiry instant in epoch milliseconds (`ttl * 1000 + Date.now()`),
`t` the original Content-Type value, `u` the canonical request URL, and
`s`, `ce`, `etag` the optional Server, Content-Encoding and ETag headers. -/
structure MetaRecord where
  e : Nat
  t : String
  u : String
  s : Option String
  ce : Option String
  etag : Option String
deriving DecidableEq

/-- A value stored in the cache: the data record (response body string),
the meta record, or the lock sentinel (the handler stores the literal
`true`). -/
inductive CacheValue
  | str : String → CacheValue
  | metaRec : MetaRecord → CacheValue
  | flag : Bool → CacheValue
deriving DecidableEq

/-- Result of one memcached `get`: a network/cluster error, or a value that
may be absent.  The lock slot records the JS truthiness of the stored
sentinel. -/
inductive Lookup (α : Type)
  | err : Lookup α
  | val : Option α → Lookup α
deriving DecidableEq

/-- Did this lookup error? -/
def Lookup.isErr {α : Type} : Lookup α → Bool
  | .err => true
  | .val _ => false

/-- The value a lookup delivered, if any. -/
def Lookup.found {α : Type} : Lookup α → Option α
  | .err => none
  | .val v => v

/-- The snapshot delivered by the three parallel `get`s issued in
src/lib/rampart.js lines 92-103 for the data, meta and lock keys. -/
structure CacheSnapshot where
  data : Lookup String
  meta : Lookup MetaRecord
  lock : Lookup Bool
deriving DecidableEq

/-- An observable action of the proxy, in program-issue order: a cache
`set` (with the optional TTL argument the call passed), a cache `del`, or
the delegation of the request to the origin proxy collaborator. -/
inductive Event
  | setOp : String → CacheValue → Option Nat → Event
  | delOp : String → Event
  | proxyForward : Event
deriving DecidableEq

/-- Is this event a cache delete? -/
def isDel : Event → Bool
  | Event.delOp _ => true
  | _ => false

/-- Is this event a cache set or delete (a cache mutation)? -/
def isCacheMutation : Event → Bool
  | Event.setOp _ _ _ => true
  | Event.delOp _ => true
  | Event.proxyForward => false

/-- The headers of a response synthesised from cache, src/lib/rampart.js
lines 107-129.  The `date` header (current wall-clock rendered as an HTTP
date) is set by the code but carries no cached state and is outside the
embedding. -/
structure SynthHeaders where
  connection : String
  contentType : String
  contentLength : Nat
  xRampart : String
  cacheControl : Option String
  server : Option String
  contentEncoding : Option String
  etag : Option String
deriving DecidableEq

/-- What the client receives: either a response synthesised from cache
(status, headers, body) or the origin's response streamed through, tagged
with the X-Rampart header value the handler set. -/
inductive ResponseKind
  | fromCache : Nat → SynthHeaders → String → ResponseKind
  | proxied : String → ResponseKind
deriving DecidableEq

/-- X-Rampart header value of a response. -/
def respXRampart : ResponseKind → String
  | ResponseKind.fromCache _ h _ => h.xRampart
  | ResponseKind.proxied x => x

/-- Was the response synthesised from cache? -/
def isFromCache : ResponseKind → Bool
  | ResponseKind.fromCache _ _ _ => true
  | ResponseKind.proxied _ => false

/-- What one run of the request handler does: the ordered cache and proxy
events it issues, and the response the client receives. -/
structure HandlerOutcome where
  events : List Event
  response : ResponseKind
deriving DecidableEq

/-- src/lib/rampart.js lines 104-152, the `async.parallel` callback of the
request handler, for a request whose URL hashed to `key`, observing the
lookup snapshot `c` at time `now` (epoch ms).

Faithful points of the translation:
* `async.parallel` invokes the callback with `err` set as soon as any of
  the three `get`s fails; the code then only logs and falls through with
  `cacheHit = false`, so the request is proxied as a MISS.
* `if (cache.meta && cache.data)` is a JS truthiness test: a present but
  empty data string is falsy and is treated like an absent entry.
* `maxage = cache.meta.e - Date.now()`; the entry is served when
  `maxage > 0 || cache.lock`, with `x-rampart` equal to "stale" whenever
  the lock is truthy and "hit" otherwise, and a `cache-control` header of
  `max-age=Math.ceil(maxage / 1000)` only when `maxage > 0`.
* otherwise the handler fires `memcached.set(lockKey, true)` (truthy
  sentinel, no TTL argument, no callback) and proxies with
  `x-rampart: updating`; with no usable entry it proxies with
  `x-rampart: miss`. -/
def handle (key : String) (c : CacheSnapshot) (now : Nat) : HandlerOutcome :=
  if c.data.isErr || c.meta.isErr || c.lock.isErr then
    ⟨[Event.proxyForward], ResponseKind.proxied "miss"⟩
  else
    match c.meta.found, c.data.found with
    | some m, some d =>
      if d = "" then ⟨[Event.proxyForward], ResponseKind.proxied "miss"⟩
      else
        let maxage : Int := (m.e : Int) - (now : Int)
        let lockTruthy : Bool := (c.lock.found).getD false
        if decide (0 < maxage) || lockTruthy then
          ⟨[], ResponseKind.fromCache 200
            ⟨"keep-alive", m.t, d.length,
             if lockTruthy then "stale" else "hit",
             if decide (0 < maxage) then
               some ("max-age=" ++ toString ((maxage.toNat + 999) / 1000))
             else none,
             m.s, m.ce, m.etag⟩ d⟩
        else
          ⟨[Event.setOp (cacheKey [key, "lock"]) (CacheValue.flag true) none,
            Event.proxyForward],
           ResponseKind.proxied "updating"⟩
    | _, _ => ⟨[Event.proxyForward], ResponseKind.proxied "miss"⟩

/-- An origin (upstream) response as the admitter observes it: status code,
the response headers it reads, and the body accumulated at end-of-stream
(`data.length` in JS counts string length). -/
structure OriginResponse where
  statusCode : Nat
  contentType : Option String
  cacheControl : Option String
  server : Option String
  contentEncoding : Option String
  etag : Option String
  body : String
deriving DecidableEq

/-- src/lib/rampart.js lines 159-185 as one predicate: the admitter reaches
its cache writes exactly when the status code is 200, the Content-Type and
Cache-Control headers are present, the Content-Type passes `isCacheable`,
the parsed TTL is positive, and the accumulated body is strictly shorter
than 1048576. -/
def admits (r : OriginResponse) : Bool :=
  r.statusCode == 200 &&
  r.contentType.isSome &&
  r.cacheControl.isSome &&
  isCacheable (r.contentType.getD "") &&
  decide (0 < ttlFromCacheControlHeader (r.cacheControl.getD "")) &&
  decide (r.body.length < 1048576)

/-- The meta record the admitter builds (src/lib/rampart.js lines 169-181)
for request URL `reqUrl` at admission time `now`. -/
def metaOf (reqUrl : String) (r : OriginResponse) (now : Nat) : MetaRecord :=
  ⟨ttlFromCacheControlHeader (r.cacheControl.getD "") * 1000 + now,
   r.contentType.getD "", reqUrl, r.server, r.contentEncoding, r.etag⟩

/-- src/lib/rampart.js lines 157-208, the `proxyResponse` handler: the
ordered list of cache operations it issues for an origin response.  When
the response is admitted, `async.series` runs the three writes strictly
sequentially, each task started only after the previous task's callback
fired: set the data key (TTL argument 0), then set the meta key (TTL
argument 0), then delete the lock key; the list order renders that issue
order.  When the response is not admitted no operation is issued.  `key` is
the decimal fingerprint string `cityhash.hash64(req.url).value`, computed
from the same (already rewritten) `req.url` string as in the handler. -/
def proxyResponseOps (key reqUrl : String) (r : OriginResponse) (now : Nat) :
    List Event :=
  if admits r then
    [Event.setOp (cacheKey [key, "data"]) (CacheValue.str r.body) (some 0),
     Event.setOp (cacheKey [key, "meta"])
       (CacheValue.metaRec (metaOf reqUrl r now)) (some 0),
     Event.delOp (cacheKey [key, "lock"])]
  else []

/-- How origin forwarding ends: with a response (the `proxyResponse` event
fires and the admitter runs) or with a timeout / unreachable origin, in
which case src/lib/rampart.js installs no error listener and nothing beyond
the handler's own events happens. -/
inductive OriginOutcome
  | response : OriginResponse → OriginOutcome
  | failure : OriginOutcome

/-- The full ordered event trace of one request: the handler's events,
followed — only when the request was proxied and the origin answered — by
the admitter's write-back operations. -/
def requestTrace (key reqUrl : String) (c : CacheSnapshot) (now : Nat)
    (o : OriginOutcome) : List Event :=
  match (handle key c now).response with
  | ResponseKind.fromCache _ _ _ => (handle key c now).events
  | ResponseKind.proxied _ =>
    (handle key c now).events ++
      (match o with
       | OriginOutcome.response r => proxyResponseOps key reqUrl r now
       | OriginOutcome.failure => [])

/-- Lexicographic comparison of character lists by code point, the key
order used when sorting query-string parameters. -/
def charsLE : Chars → Chars → Bool
  | [], _ => true
  | _ :: _, [] => false
  | a :: as, b :: bs =>
    if a < b then true else if b < a then false else charsLE as bs

/-- Order on query parameters: compare keys only (lexicographically), so
that a stable sort preserves a multi-valued parameter's internal order. -/
abbrev keyle (p q : Chars × Chars) : Prop := charsLE p.1 q.1 = true

/-- Split one `k=v` piece of a query string at its first "=" (later "="
characters belong to the value). -/
def splitKV (kv : Chars) : Chars × Chars :=
  match splitOn '=' kv with
  | [] => ([], [])
  | k :: rest => (k, joinWith '=' rest)

/-- Parse a query string into its ordered key/value pairs. -/
def parseQuery (q : Chars) : List (Chars × Chars) :=
  (splitOn '&' q).map splitKV

/-- Render one parameter back as `k=v`. -/
def renderParam (p : Chars × Chars) : Chars := p.1 ++ '=' :: p.2

/-- Render a parameter list back into a query string. -/
def renderQuery (l : List (Chars × Chars)) : Chars :=
  joinWith '&' (l.map renderParam)

/-- Modelled from the spec (sections 4.1 and 8): the query-string
canonicalisation performed inside the external node-url-utils dependency
(src/lib/rampart.js line 66, `urlUtils.normalize`), which is not part of
src/.  Parameters are sorted lexicographically by key with a stable sort,
preserving a multi-valued parameter's internal order; the remove-keys
option is left at its default (empty) as in the claim. -/
def canonicalQuery (q : Chars) : Chars :=
  renderQuery (List.insertionSort keyle (parseQuery q))

/-- Modelled from the spec (section 3): a stand-in for the external
cityhash dependency (src/lib/rampart.js line 90); the spec admits "any
fixed well-distributed 64-bit hash".  FNV-1a over code points, reduced
modulo 2^64. -/
def hash64 (s : Chars) : Nat :=
  s.foldl (fun h c => ((h ^^^ c.toNat) * 1099511628211) % 18446744073709551616)
    14695981039346656037

/-- The cache-key fingerprint of a raw URL (src/lib/rampart.js lines 88-91
composed with the spec-modelled canonicalisation): hash of the path with
its canonicalised query string, or of the bare path when there is no
query. -/
def fingerprint (rawUrl : String) : Nat :=
  match splitOn '?' rawUrl.data with
  | [p] => hash64 p
  | p :: rest => hash64 (p ++ '?' :: canonicalQuery (joinWith '?' rest))
  | [] => hash64 []

/-- The names assigned on the module exports object of src/lib/rampart.js:
the file contains exactly one such assignment, `exports.createServer`. -/
def rampartExportNames : List String := ["createServer"]

/-- Outcome of one GET handled by the metrics listener. -/
inductive MetricsOutcome
  | ok : Nat → String → MetricsOutcome
  | thrown : String → MetricsOutcome
deriving DecidableEq

/-- The metrics listener of the bin script (src/unnamed/part_000 lines
43-50): after `writeHead(200, application/json)` it evaluates
`JSON.stringify(rampart.metrics())`.  Property access on the exports
object yields `undefined` for any name not exported, and calling
`undefined` throws a TypeError before the body is written, so the JSON
counter body is produced only if "metrics" is among the exported names. -/
def metricsRequestOutcome : MetricsOutcome :=
  if "metrics" ∈ rampartExportNames then .ok 200 "application/json"
  else .thrown "TypeError"

/-- The cache cluster as a key-value map. -/
def CacheState := String → Option CacheValue

/-- Effect of one event on the cache. -/
def applyEvent (s : CacheState) : Event → CacheState
  | Event.setOp k v _ => fun q => if q = k then some v else s q
  | Event.delOp k => fun q => if q = k then none else s q
  | Event.proxyForward => s

/-- Effect of an event list on the cache, applied in order. -/
def applyEvents (s : CacheState) (es : List Event) : CacheState :=
  es.foldl applyEvent s

/-- The admission predicate exactly as the claim and spec section 4.6 state
it: status exactly 200, Content-Type present and accepted by the gate,
Cache-Control present with positive parsed TTL, body strictly shorter than
1048576. -/
def admissionPredicate (r : OriginResponse) : Prop :=
  r.statusCode = 200 ∧ r.contentType.isSome = true ∧
  isCacheable (r.contentType.getD "") = true ∧
  r.cacheControl.isSome = true ∧
  0 < ttlFromCacheControlHeader (r.cacheControl.getD "") ∧
  r.body.length < 1048576

instance (r : OriginResponse) : Decidable (admissionPredicate r) := by
  unfold admissionPredicate
  infer_instance

/-- An empty cache, for frame statements. -/
def emptyCache : CacheState := fun _ => none

/-- A meta record that is still fresh at instant 50 (expires at 100). -/
def mFreshC : MetaRecord := ⟨100, "text/plain", "/u", none, none, none⟩

/-- A meta record already expired at instant 50 (expired at 10). -/
def mExpiredC : MetaRecord := ⟨10, "text/plain", "/u", none, none, none⟩

/-- Snapshot: data and meta present, fresh, lock present. -/
def snapFreshLockC : CacheSnapshot :=
  ⟨Lookup.val (some "body"), Lookup.val (some mFreshC), Lookup.val (some true)⟩

/-- Snapshot: empty-string data record present, fresh meta, no lock. -/
def snapFreshEmptyC : CacheSnapshot :=
  ⟨Lookup.val (some ""), Lookup.val (some mFreshC), Lookup.val none⟩

/-- Snapshot: data and meta present, fresh, no lock. -/
def snapFreshC : CacheSnapshot :=
  ⟨Lookup.val (some "body"), Lookup.val (some mFreshC), Lookup.val none⟩

/-- Snapshot: data and meta present, expired, no lock (UPDATING branch). -/
def snapUpdC : CacheSnapshot :=
  ⟨Lookup.val (some "body"), Lookup.val (some mExpiredC), Lookup.val none⟩

/-- Snapshot: fresh data and meta present, but the lock lookup errored. -/
def snapLockErrC : CacheSnapshot :=
  ⟨Lookup.val (some "body"), Lookup.val (some mFreshC), Lookup.err⟩

/-- An origin response that the admitter accepts. -/
def rTextOk : OriginResponse :=
  ⟨200, some "text/plain", some "max-age=5", none, none, none, "hello"⟩

/-- An origin response the admitter rejects (media type not cacheable). -/
def rPng : OriginResponse :=
  ⟨200, some "image/png", some "max-age=60", none, none, none, "img"⟩

/-- Every run of the request handler has one of exactly three shapes:
proxy as MISS with no cache operation; write the lock and proxy as
UPDATING; or answer from cache with no event at all. -/
theorem handle_cases (key : String) (c : CacheSnapshot) (now : Nat) :
    handle key c now = ⟨[Event.proxyForward], ResponseKind.proxied "miss"⟩ ∨
    handle key c now =
      ⟨[Event.setOp (cacheKey [key, "lock"]) (CacheValue.flag true) none,
        Event.proxyForward], ResponseKind.proxied "updating"⟩ ∨
    ((handle key c now).events = [] ∧
      isFromCache (handle key c now).response = true) := by
  unfold handle
  dsimp only
  repeat' split
  all_goals simp [isFromCache]

/-- Unfolding lemma: a request trace is the handler's events alone when
the response came from cache, and the handler's events followed by the
admitter's operations (empty on origin failure) otherwise. -/
theorem requestTrace_eq (key reqUrl : String) (c : CacheSnapshot) (now : Nat)
    (o : OriginOutcome) :
    requestTrace key reqUrl c now o =
      if isFromCache (handle key c now).response then (handle key c now).events
      else (handle key c now).events ++
        (match o with
         | OriginOutcome.response r => proxyResponseOps key reqUrl r now
         | OriginOutcome.failure => []) := by
  unfold requestTrace
  generalize (handle key c now).response = resp
  cases resp <;> simp [isFromCache]

/-- The Bool gate in the admitter agrees with the claim-level admission
predicate. -/
theorem admits_iff (r : OriginResponse) :
    admits r = true ↔ admissionPredicate r := by
  simp only [admits, admissionPredicate, Bool.and_eq_true, beq_iff_eq,
    decide_eq_true_eq]
  tauto

/-- C2: the admitter writes the data record, the meta record and the
lock-delete exactly when the origin response has status 200, a present
Content-Type accepted by the media-type gate, a present Cache-Control
whose parsed TTL is positive, and a body strictly shorter than 1048576;
when any condition fails it issues no operation, so the cache (including
any lock) is left untouched. -/
theorem C2_admission (key reqUrl : String) (r : OriginResponse) (now : Nat)
    (s : CacheState) :
    (admissionPredicate r → proxyResponseOps key reqUrl r now =
      [Event.setOp (cacheKey [key, "data"]) (CacheValue.str r.body) (some 0),
       Event.setOp (cacheKey [key, "meta"])
         (CacheValue.metaRec (metaOf reqUrl r now)) (some 0),
       Event.delOp (cacheKey [key, "lock"])]) ∧
    (¬ admissionPredicate r → proxyResponseOps key reqUrl r now = [] ∧
      applyEvents s (proxyResponseOps key reqUrl r now) = s) := by
  constructor
  · intro h
    rw [proxyResponseOps, if_pos ((admits_iff r).mpr h)]
  · intro h
    have hb : admits r = false := by
      cases hb : admits r
      · rfl
      · exact absurd ((admits_iff r).mp hb) h
    rw [proxyResponseOps, if_neg (by simp [hb])]
    exact ⟨rfl, rfl⟩

/-- C2 witness: an accepted text/plain response is written as
data-meta-delete, and a rejected image/png response leaves the cache
untouched. -/
theorem C2_admission_witness :
    proxyResponseOps "k" "/u" rTextOk 7 =
      [Event.setOp (cacheKey ["k", "data"]) (CacheValue.str "hello") (some 0),
       Event.setOp (cacheKey ["k", "meta"])
         (CacheValue.metaRec (metaOf "/u" rTextOk 7)) (some 0),
       Event.delOp (cacheKey ["k", "lock"])] ∧
    proxyResponseOps "k" "/u" rPng 7 = [] ∧
    applyEvents emptyCache (proxyResponseOps "k" "/u" rPng 7) = emptyCache := by
  refine ⟨(C2_admission "k" "/u" rTextOk 7 emptyCache).1 (by decide), ?_, ?_⟩
  · exact ((C2_admission "k" "/u" rPng 7 emptyCache).2 (by decide)).1
  · exact ((C2_admission "k" "/u" rPng 7 emptyCache).2 (by decide)).2

/-- C3: for every admitted origin response the admitter issues exactly
three cache operations, in this order: set the data key, set the meta key,
delete the lock key.  The list renders the issue order of `async.series`,
which starts each task only after the previous task's callback has
completed. -/
theorem C3_write_order (key reqUrl : String) (r : OriginResponse) (now : Nat)
    (h : admits r = true) :
    proxyResponseOps key reqUrl r now =
      [Event.setOp (cacheKey [key, "data"]) (CacheValue.str r.body) (some 0),
       Event.setOp (cacheKey [key, "meta"])
         (CacheValue.metaRec (metaOf reqUrl r now)) (some 0),
       Event.delOp (cacheKey [key, "lock"])] := by
  rw [proxyResponseOps, if_pos h]

/-- C3 witness: the accepted text/plain response at a concrete instant. -/
theorem C3_write_order_witness :
    proxyResponseOps "k2" "/u" rTextOk 7 =
      [Event.setOp (cacheKey ["k2", "data"]) (CacheValue.str "hello") (some 0),
       Event.setOp (cacheKey ["k2", "meta"])
         (CacheValue.metaRec (metaOf "/u" rTextOk 7)) (some 0),
       Event.delOp (cacheKey ["k2", "lock"])] :=
  C3_write_order "k2" "/u" rTextOk 7 (by decide)

/-- C1 counterexample: with data and meta present and fresh
(expiresAt = 100 > now = 50) the claim demands X-Rampart "hit" regardless
of the lock, but with the lock present the handler answers "stale"; and
with a present but empty data record the entry is not served from cache at
all — the request is proxied as a MISS. -/
theorem C1_counterexample :
    respXRampart (handle "k" snapFreshLockC 50).response = "stale" ∧
    handle "k" snapFreshEmptyC 50 =
      ⟨[Event.proxyForward], ResponseKind.proxied "miss"⟩ := by
  decide

/-- C1 amended: when the cache returns a non-empty data record and a meta
record with expiresAt > now and no lookup errored, the handler answers 200
with body exactly the data record; X-Rampart is "hit" when the lock is
absent (or stored falsy) and "stale" when the lock is present, and a
Cache-Control header carries the ceiling of the remaining freshness in
seconds. -/
theorem C1_amended (key d : String) (m : MetaRecord) (lockv : Option Bool)
    (now : Nat) (hd : d ≠ "") (hfresh : (now : Int) < (m.e : Int)) :
    handle key ⟨Lookup.val (some d), Lookup.val (some m), Lookup.val lockv⟩ now =
      ⟨[], ResponseKind.fromCache 200
        ⟨"keep-alive", m.t, d.length,
         if lockv.getD false then "stale" else "hit",
         some ("max-age=" ++
           toString ((((m.e : Int) - (now : Int)).toNat + 999) / 1000)),
         m.s, m.ce, m.etag⟩ d⟩ := by
  have hm : (0 : Int) < (m.e : Int) - (now : Int) := by omega
  unfold handle
  simp [Lookup.isErr, Lookup.found, hd, hm]

/-- C1 witness: fresh entry, no lock, body "body": a 200 "hit" response
with the cached body. -/
theorem C1_amended_witness :
    handle "k" ⟨Lookup.val (some "body"), Lookup.val (some mFreshC),
        Lookup.val none⟩ 50 =
      ⟨[], ResponseKind.fromCache 200
        ⟨"keep-alive", mFreshC.t, "body".length,
         if (none : Option Bool).getD false then "stale" else "hit",
         some ("max-age=" ++
           toString ((((mFreshC.e : Int) - (50 : Int)).toNat + 999) / 1000)),
         mFreshC.s, mFreshC.ce, mFreshC.etag⟩ "body"⟩ :=
  C1_amended "k" "body" mFreshC none 50 (by decide) (by decide)

/-- C4 counterexample: data and meta present and fresh but the lock lookup
errors; the claim demands the errored key be treated as absent and the
request served from cache, but `async.parallel` delivers the error and the
handler proxies the request as a MISS. -/
theorem C4_counterexample :
    handle "k" snapLockErrC 50 =
      ⟨[Event.proxyForward], ResponseKind.proxied "miss"⟩ := by
  decide

/-- C4 amended: an error on any one of the three lookups makes the handler
discard the whole snapshot — it logs the error and proxies the request as a
MISS, issuing no cache operation of its own. -/
theorem C4_amended (key : String) (c : CacheSnapshot) (now : Nat)
    (h : (c.data.isErr || c.meta.isErr || c.lock.isErr) = true) :
    handle key c now = ⟨[Event.proxyForward], ResponseKind.proxied "miss"⟩ := by
  unfold handle
  rw [if_pos h]

/-- C4 witness: a data-key error with meta and lock fine is proxied as a
MISS. -/
theorem C4_amended_witness :
    handle "k" ⟨Lookup.err, Lookup.val (some mFreshC), Lookup.val none⟩ 50 =
      ⟨[Event.proxyForward], ResponseKind.proxied "miss"⟩ :=
  C4_amended "k" ⟨Lookup.err, Lookup.val (some mFreshC), Lookup.val none⟩ 50
    (by decide)

/-- C5 counterexample: in the UPDATING branch (expired entry, no lock) with
the origin unreachable, the handler did write the lock, yet the full trace
contains no delete operation at all — the lock is not released, contrary to
the claim. -/
theorem C5_counterexample :
    (Event.setOp (cacheKey ["k", "lock"]) (CacheValue.flag true) none
       ∈ requestTrace "k" "/u" snapUpdC 50 OriginOutcome.failure) ∧
    (requestTrace "k" "/u" snapUpdC 50 OriginOutcome.failure).filter isDel
      = [] := by
  decide

/-- C5 amended: when origin forwarding fails (timeout or unreachable
origin) rampart issues no delete operation whatsoever — in particular a
lock written by the UPDATING branch stays in the cache until eviction or a
later successful admission; the error response the client sees comes from
the proxy collaborator, not from this code. -/
theorem C5_amended (key reqUrl : String) (c : CacheSnapshot) (now : Nat) :
    (requestTrace key reqUrl c now OriginOutcome.failure).filter isDel
      = [] := by
  have hev : (handle key c now).events.filter isDel = [] := by
    rcases handle_cases key c now with h | h | h <;> simp [h, isDel]
  rw [requestTrace_eq]
  split
  · exact hev
  · simp [List.filter_append, hev]

/-- C6 counterexample: a present but empty data record with expired meta
and no lock satisfies the claim's antecedent, yet the handler neither
writes the lock nor marks the response "updating": it proxies as a plain
MISS. -/
theorem C6_counterexample :
    handle "k" ⟨Lookup.val (some ""), Lookup.val (some mExpiredC),
        Lookup.val none⟩ 50 =
      ⟨[Event.proxyForward], ResponseKind.proxied "miss"⟩ := by
  decide

/-- C6 amended: with a non-empty data record, a meta record with
expiresAt ≤ now, and no lock, the handler sets the lock key with the truthy
sentinel and no TTL argument before delegating to the origin proxy, and the
streamed response carries X-Rampart "updating". -/
theorem C6_amended (key d : String) (m : MetaRecord) (now : Nat)
    (hd : d ≠ "") (hexp : (m.e : Int) ≤ (now : Int)) :
    handle key ⟨Lookup.val (some d), Lookup.val (some m), Lookup.val none⟩ now =
      ⟨[Event.setOp (cacheKey [key, "lock"]) (CacheValue.flag true) none,
        Event.proxyForward],
       ResponseKind.proxied "updating"⟩ := by
  have hm : ¬ ((0 : Int) < (m.e : Int) - (now : Int)) := by omega
  unfold handle
  simp [Lookup.isErr, Lookup.found, hd, hm]

/-- C6 witness: the expired no-lock snapshot at instant 50. -/
theorem C6_amended_witness :
    handle "k" ⟨Lookup.val (some "body"), Lookup.val (some mExpiredC),
        Lookup.val none⟩ 50 =
      ⟨[Event.setOp (cacheKey ["k", "lock"]) (CacheValue.flag true) none,
        Event.proxyForward],
       ResponseKind.proxied "updating"⟩ :=
  C6_amended "k" "body" mExpiredC 50 (by decide) (by decide)

/-- C9: the metrics listener of the bin script calls `rampart.metrics()`,
but src/lib/rampart.js exports only `createServer` (and maintains no
counters at all), so a GET on the metrics port throws a TypeError instead
of returning the JSON counter object the spec describes. -/
theorem C9_metrics_throws :
    metricsRequestOutcome = MetricsOutcome.thrown "TypeError" ∧
    rampartExportNames.contains "metrics" = false := by
  decide

/-- C10: every request answered from cache (the handler synthesised the
response from the data and meta records) produces an empty event trace:
no cache set, no delete, and no origin forwarding — whatever the origin
outcome parameter, since the origin is never contacted. -/
theorem C10_frame (key reqUrl : String) (c : CacheSnapshot) (now : Nat)
    (o : OriginOutcome)
    (h : isFromCache (handle key c now).response = true) :
    requestTrace key reqUrl c now o = [] := by
  rcases handle_cases key c now with hc | hc | hc
  · rw [hc] at h
    simp [isFromCache] at h
  · rw [hc] at h
    simp [isFromCache] at h
  · rw [requestTrace_eq, if_pos h]
    exact hc.1

/-- Characters of a matched prefix all occur in the list. -/
theorem subset_of_isPrefixOf :
    ∀ {l₁ l₂ : Chars}, l₁.isPrefixOf l₂ = true → ∀ a ∈ l₁, a ∈ l₂
  | [], _, _, _, ha => absurd ha (List.not_mem_nil _)
  | _ :: _, [], h, _, _ => by simp [List.isPrefixOf] at h
  | a :: as, b :: bs, h, x, hx => by
    rw [List.isPrefixOf_cons₂] at h
    obtain ⟨hab, h'⟩ := Bool.and_eq_true_iff.mp h
    rcases List.mem_cons.mp hx with hxa | hxs
    · exact hxa ▸ (beq_iff_eq.mp hab ▸ List.mem_cons_self b bs)
    · exact List.mem_cons_of_mem b (subset_of_isPrefixOf h' x hxs)

/-- Characters of a substring found by `containsSub` all occur in the
subject. -/
theorem mem_of_containsSub {sub l : Chars} (c : Char) (hc : c ∈ sub)
    (h : containsSub sub l = true) : c ∈ l := by
  induction l with
  | nil =>
    rw [containsSub, List.isEmpty_iff] at h
    exact absurd (h ▸ hc) (List.not_mem_nil c)
  | cons a rest ih =>
    rw [containsSub, Bool.or_eq_true] at h
    rcases h with h | h
    · exact subset_of_isPrefixOf h c hc
    · exact List.mem_cons_of_mem a (ih h)

/-- A substring containing a character foreign to the subject is not
found. -/
theorem containsSub_eq_false {sub l : Chars} (c : Char) (hc : c ∈ sub)
    (hl : c ∉ l) : containsSub sub l = false := by
  cases h : containsSub sub l
  · rfl
  · exact absurd (mem_of_containsSub c hc h) hl

/-- Characters of a pattern matched by `findPatternDigits` all occur in
the subject. -/
theorem mem_of_findPatternDigits :
    ∀ {l : Chars} {pat ds : Chars} (c : Char), c ∈ pat →
      findPatternDigits pat l = some ds → c ∈ l
  | [], _, _, _, _, h => by rw [findPatternDigits] at h; cases h
  | a :: rest, pat, ds, c, hc, h => by
    rw [findPatternDigits] at h
    split at h
    · next hpre => exact subset_of_isPrefixOf hpre c hc
    · next hpre => exact List.mem_cons_of_mem a (mem_of_findPatternDigits c hc h)

/-- A pattern containing a character foreign to the subject never
matches. -/
theorem findPatternDigits_eq_none {pat l : Chars} (c : Char) (hc : c ∈ pat)
    (hl : c ∉ l) : findPatternDigits pat l = none := by
  cases h : findPatternDigits pat l with
  | none => rfl
  | some ds => exact absurd (mem_of_findPatternDigits c hc h) hl

/-- A run made of digits only is taken whole. -/
theorem takeDigits_eq_self {ds : Chars} (h : ∀ c ∈ ds, c.isDigit = true) :
    takeDigits ds = ds := by
  induction ds with
  | nil => rfl
  | cons c rest ih =>
    rw [takeDigits, if_pos (h c (List.mem_cons_self c rest))]
    rw [ih fun x hx => h x (List.mem_cons_of_mem c hx)]

/-- A list is a `isPrefixOf`-prefix of itself followed by anything. -/
theorem isPrefixOf_append_self : ∀ l₁ l₂ : Chars,
    l₁.isPrefixOf (l₁ ++ l₂) = true
  | [], _ => by rw [List.isPrefixOf]
  | a :: as, l₂ => by
    rw [List.cons_append, List.isPrefixOf_cons₂]
    exact Bool.and_eq_true_iff.mpr ⟨beq_self_eq_true a, isPrefixOf_append_self as l₂⟩

/-- `findPatternDigits` matching right at the head of `pat ++ ds` when
`ds` is a non-empty digit run. -/
theorem findPatternDigits_append (pat ds : Chars) (hpat : pat ≠ [])
    (hne : ds ≠ []) (hd : ∀ c ∈ ds, c.isDigit = true) :
    findPatternDigits pat (pat ++ ds) = some ds := by
  cases pat with
  | nil => exact absurd rfl hpat
  | cons p ps =>
    have hpre : (p :: ps).isPrefixOf (p :: (ps ++ ds)) = true := by
      have := isPrefixOf_append_self (p :: ps) ds
      rwa [List.cons_append] at this
    have hdrop : List.drop (p :: ps).length (p :: (ps ++ ds)) = ds := by
      have := List.drop_left (p :: ps) ds
      rwa [List.cons_append] at this
    show findPatternDigits (p :: ps) ((p :: ps) ++ ds) = some ds
    rw [List.cons_append, findPatternDigits, if_pos hpre, hdrop,
      takeDigits_eq_self hd]
    simp [hne]

/-- C7 counterexample: a digit string exceeding the 32-bit-seconds maximum
(2^32 - 1 = 4294967295) is returned at its full decimal value, not
saturated. -/
theorem C7_counterexample :
    ttlFromCacheControlHeader "max-age=99999999999" = 99999999999 ∧
    4294967295 < ttlFromCacheControlHeader "max-age=99999999999" := by
  decide

/-- C7 amended: the numeric parsing of the max-age digits is decimal with
leading zeros allowed — for any non-empty digit run the parser returns its
exact decimal value, and a leading zero does not change that value; no
saturation at a 32-bit maximum takes place (see the counterexample). -/
theorem C7_amended (ds : Chars) (hne : ds ≠ [])
    (hd : ∀ c ∈ ds, c.isDigit = true) :
    ttlFromCacheControlHeader (String.mk ("max-age=".data ++ ds))
      = digitsToNat ds ∧
    digitsToNat ('0' :: ds) = digitsToNat ds := by
  have hdigitNe : ∀ x : Char, x ∈ ds → x.isDigit = true → ∀ y : Char,
      y.isDigit = false → x ≠ y := by
    intro x _ hx y hy he
    rw [he, hy] at hx
    cases hx
  have hnotin : ∀ y : Char, y.isDigit = false → y ∉ "max-age=".data →
      y ∉ "max-age=".data ++ ds := by
    intro y hy hnm hmem
    rcases List.mem_append.mp hmem with h | h
    · exact hnm h
    · exact hdigitNe y h (hd y h) y hy rfl
  constructor
  · have hnc : containsSub "no-cache".data ("max-age=".data ++ ds) = false :=
      containsSub_eq_false 'n' (by decide)
        (hnotin 'n' (by decide) (by decide))
    have hpr : containsSub "private".data ("max-age=".data ++ ds) = false :=
      containsSub_eq_false 'p' (by decide)
        (hnotin 'p' (by decide) (by decide))
    have hsm : findPatternDigits "s-maxage=".data ("max-age=".data ++ ds)
        = none :=
      findPatternDigits_eq_none 's' (by decide)
        (hnotin 's' (by decide) (by decide))
    have hma : findPatternDigits "max-age=".data ("max-age=".data ++ ds)
        = some ds :=
      findPatternDigits_append "max-age=".data ds (by decide) hne hd
    rw [ttlFromCacheControlHeader]
    rw [show (String.mk ("max-age=".data ++ ds)).data
        = "max-age=".data ++ ds from rfl]
    rw [hnc, hpr]
    simp only [Bool.or_self, Bool.false_or, if_false, Bool.false_eq_true]
    rw [hsm, hma]
  · rfl

/-- C7 witness: "max-age=007" parses to 7, and prefixing another zero still
gives 7. -/
theorem C7_amended_witness :
    ttlFromCacheControlHeader (String.mk ("max-age=".data ++ ['0', '0', '7']))
      = digitsToNat ['0', '0', '7'] ∧
    digitsToNat ('0' :: ['0', '0', '7']) = digitsToNat ['0', '0', '7'] :=
  C7_amended ['0', '0', '7'] (by decide) (by decide)

/-- `charsLE` is total. -/
theorem charsLE_total : ∀ x y : Chars, charsLE x y = true ∨ charsLE y x = true
  | [], _ => Or.inl rfl
  | _ :: _, [] => Or.inr rfl
  | a :: as, b :: bs => by
    by_cases hab : a < b
    · exact Or.inl (by simp [charsLE, hab])
    · by_cases hba : b < a
      · exact Or.inr (by simp [charsLE, hba])
      · rcases charsLE_total as bs with h | h
        · exact Or.inl (by simp [charsLE, hab, hba, h])
        · exact Or.inr (by simp [charsLE, hab, hba, h])

/-- `charsLE` is transitive. -/
theorem charsLE_trans : ∀ x y z : Chars, charsLE x y = true →
    charsLE y z = true → charsLE x z = true
  | [], _, _, _, _ => rfl
  | _ :: _, [], _, hxy, _ => by simp [charsLE] at hxy
  | _ :: _, _ :: _, [], _, hyz => by simp [charsLE] at hyz
  | a :: as, b :: bs, c :: cs, hxy, hyz => by
    by_cases hab : a < b
    · by_cases hbc : b < c
      · simp [charsLE, lt_trans hab hbc]
      · by_cases hcb : c < b
        · simp [charsLE, hbc, hcb] at hyz
        · have hbec : b = c := le_antisymm (le_of_not_lt hcb) (le_of_not_lt hbc)
          subst hbec
          simp [charsLE, hab]
    · by_cases hba : b < a
      · simp [charsLE, hab, hba] at hxy
      · have haeb : a = b := le_antisymm (le_of_not_lt hba) (le_of_not_lt hab)
        subst haeb
        simp only [charsLE, lt_self_iff_false, if_false] at hxy
        by_cases hac : a < c
        · simp [charsLE, hac]
        · by_cases hca : c < a
          · simp [charsLE, hac, hca] at hyz
          · simp only [charsLE, hac, hca, if_false] at hyz ⊢
            exact charsLE_trans as bs cs hxy hyz

/-- `charsLE` is antisymmetric. -/
theorem charsLE_antisymm : ∀ x y : Chars, charsLE x y = true →
    charsLE y x = true → x = y
  | [], [], _, _ => rfl
  | [], _ :: _, _, hyx => by simp [charsLE] at hyx
  | _ :: _, [], hxy, _ => by simp [charsLE] at hxy
  | a :: as, b :: bs, hxy, hyx => by
    by_cases hab : a < b
    · simp [charsLE, lt_asymm hab, hab] at hyx
    · by_cases hba : b < a
      · simp [charsLE, hab, hba] at hxy
      · have haeb : a = b := le_antisymm (le_of_not_lt hba) (le_of_not_lt hab)
        subst haeb
        simp only [charsLE, lt_self_iff_false, if_false] at hxy hyx
        rw [charsLE_antisymm as bs hxy hyx]

instance : IsTotal (Chars × Chars) keyle :=
  ⟨fun p q => charsLE_total p.1 q.1⟩

instance : IsTrans (Chars × Chars) keyle :=
  ⟨fun p q r h1 h2 => charsLE_trans p.1 q.1 r.1 h1 h2⟩

/-- Two lists of parameters that are sorted by key, are permutations of
each other, and have pairwise distinct keys, are equal. -/
theorem sorted_perm_nodupkeys_eq : ∀ {l₁ l₂ : List (Chars × Chars)},
    l₁.Perm l₂ → (l₁.map Prod.fst).Nodup → l₁.Sorted keyle →
    l₂.Sorted keyle → l₁ = l₂
  | [], _, hp, _, _, _ => hp.nil_eq
  | _ :: _, [], hp, _, _, _ => by simpa using hp.eq_nil
  | a :: t₁, b :: t₂, hp, hn, hs₁, hs₂ => by
    by_cases hab : a = b
    · subst hab
      have ht : t₁.Perm t₂ := hp.cons_inv
      have hnt : (t₁.map Prod.fst).Nodup := (List.nodup_cons.mp (by simpa using hn)).2
      rw [sorted_perm_nodupkeys_eq ht hnt hs₁.of_cons hs₂.of_cons]
    · exfalso
      have ha2 : a ∈ t₂ := by
        have := hp.subset (List.mem_cons_self a t₁)
        simpa [hab] using this
      have hb1 : b ∈ t₁ := by
        have := hp.symm.subset (List.mem_cons_self b t₂)
        rcases List.mem_cons.mp this with h | h
        · exact absurd h.symm hab
        · exact h
      have h1 : keyle a b := (List.sorted_cons.mp hs₁).1 b hb1
      have h2 : keyle b a := (List.sorted_cons.mp hs₂).1 a ha2
      have hkey : a.1 = b.1 := charsLE_antisymm a.1 b.1 h1 h2
      have hnotin : a.1 ∉ t₁.map Prod.fst :=
        (List.nodup_cons.mp (by simpa using hn)).1
      apply hnotin
      rw [hkey]
      exact List.mem_map_of_mem Prod.fst hb1

/-- Sorting two key-nodup permutations of the same parameters gives the
same list. -/
theorem insertionSort_perm_nodupkeys_eq {l₁ l₂ : List (Chars × Chars)}
    (hp : l₁.Perm l₂) (hn : (l₁.map Prod.fst).Nodup) :
    List.insertionSort keyle l₁ = List.insertionSort keyle l₂ := by
  apply sorted_perm_nodupkeys_eq
  · exact (List.perm_insertionSort keyle l₁).trans
      (hp.trans (List.perm_insertionSort keyle l₂).symm)
  · exact (((List.perm_insertionSort keyle l₁).map Prod.fst).nodup_iff).mpr hn
  · exact List.sorted_insertionSort keyle l₁
  · exact List.sorted_insertionSort keyle l₂

/-- C8 counterexample: two raw URLs that differ only in the order of their
query-string parameters — but with a repeated key — receive different
fingerprints, because the stable sort preserves each key's internal value
order. -/
theorem C8_counterexample :
    decide (fingerprint "/a?b=1&b=2" = fingerprint "/a?b=2&b=1") = false := by
  decide

/-- C8 amended: the fingerprint is stable under reordering of query-string
parameters as long as the parameter keys are pairwise distinct (for a
repeated key the preserved internal order makes the canonical forms
differ): two URLs with the same path whose parameter lists are permutations
of one another with no duplicate key hash identically. -/
theorem C8_amended (u1 u2 : String) (p q1 q2 : Chars)
    (h1 : splitOn '?' u1.data = [p, q1])
    (h2 : splitOn '?' u2.data = [p, q2])
    (hperm : (parseQuery q1).Perm (parseQuery q2))
    (hnodup : ((parseQuery q1).map Prod.fst).Nodup) :
    fingerprint u1 = fingerprint u2 := by
  unfold fingerprint
  rw [h1, h2]
  show hash64 (p ++ '?' :: canonicalQuery q1)
      = hash64 (p ++ '?' :: canonicalQuery q2)
  unfold canonicalQuery
  rw [insertionSort_perm_nodupkeys_eq hperm hnodup]

/-- C8 witness: the spec's own example pair. -/
theorem C8_amended_witness :
    fingerprint "/a?b=1&c=2" = fingerprint "/a?c=2&b=1" :=
  C8_amended "/a?b=1&c=2" "/a?c=2&b=1" "/a".data "b=1&c=2".data "c=2&b=1".data
    (by decide) (by decide) (by decide) (by decide)

/-- C10 witness: a fresh HIT leaves the trace empty even though the origin
would have answered. -/
theorem C10_frame_witness :
    requestTrace "k" "/u" snapFreshC 50 (OriginOutcome.response rTextOk)
      = [] :=
  C10_frame "k" "/u" snapFreshC 50 (OriginOutcome.response rTextOk)
    (by decide)

end Rampart
